import Mathlib

/-!
Shallow embedding of `src/job/data_export_job.py` (class `DataExportJob`):
a five-stage batch pipeline  extract → stage (MongoDB) → re-extract →
serialize (CSV) → publish (Azure blob).  Python/pandas values are modelled
by the inductive `Value`; a pandas `DataFrame` by column names plus rows;
the Mongo collection and the blob container by explicit state records.
External-store calls (`utcnow`, ObjectId generation, upload success) are
modelled by explicit parameters so that each claim can be stated over all
behaviours of the collaborators.
-/

/-- A calendar date (Python `datetime.date`). -/
structure Date where
  year : Nat
  month : Nat
  day : Nat
deriving DecidableEq, Repr

/-- A temporal instant (Python `datetime.datetime`, to second granularity). -/
structure DateTime where
  date : Date
  hour : Nat
  minute : Nat
  second : Nat
deriving DecidableEq, Repr

/-- Python/pandas scalar and container values as they flow through the job:
integers, floats (payload abstracted to an integer, since no claim depends on
float arithmetic), strings, booleans, date-only values, temporal instants,
the pandas missing sentinel (`NaN`/`NaT`), Python `None` / Mongo null, the
store-assigned ObjectId, and nested dicts/lists. -/
inductive Value where
  | vInt : Int → Value
  | vFloat : Int → Value
  | vStr : String → Value
  | vBool : Bool → Value
  | vDate : Date → Value
  | vDateTime : DateTime → Value
  | vNaN : Value
  | vNull : Value
  | vId : Nat → Value
  | vDict : List (String × Value) → Value
  | vList : List Value → Value

/-- A record/document: an insertion-ordered mapping from field name to value
(Python dict as produced by `DataFrame.to_dict('records')`). -/
abbrev Record := List (String × Value)

mutual

/-- `DataExportJob.convert_dates_to_datetime` (src lines 57-72): recursively
convert date-only values to midnight datetimes and pandas missing sentinels
to `None`; dicts and lists are processed element-wise; everything else is
returned unchanged.  `vNull` hits the `pd.isna` branch (Python
`pd.isna(None)` is `True`) and comes back as `None`, i.e. unchanged. -/
def convert_dates_to_datetime : Value → Value
  | .vDict fields => .vDict (convertFields fields)
  | .vList items => .vList (convertItems items)
  | .vDate d => .vDateTime ⟨d, 0, 0, 0⟩
  | .vNaN => .vNull
  | .vNull => .vNull
  | v => v

def convertItems : List Value → List Value
  | [] => []
  | x :: xs => convert_dates_to_datetime x :: convertItems xs

def convertFields : List (String × Value) → List (String × Value)
  | [] => []
  | (k, v) :: rest => (k, convert_dates_to_datetime v) :: convertFields rest

end

/-- Update key `k` of a Python dict (`d[k] = v`): overwrite in place if
present, otherwise append as the newest key. -/
def Record.setKey (r : Record) (k : String) (v : Value) : Record :=
  if r.any (fun kv => kv.1 = k) then
    r.map (fun kv => if kv.1 = k then (k, v) else kv)
  else r ++ [(k, v)]

/-- A pandas DataFrame: ordered column labels and rows of cell values
(each row listing one cell per column). -/
structure DataFrame where
  cols : List String
  rows : List (List Value)

/-- `df.empty`: true when either axis has length zero. -/
def DataFrame.empty (df : DataFrame) : Bool :=
  df.rows.isEmpty || df.cols.isEmpty

/-- `df.to_dict('records')` (src line 86): one dict per row, listing every
column of the frame. -/
def DataFrame.to_dict_records (df : DataFrame) : List Record :=
  df.rows.map fun r => df.cols.zip r

/-- Column `j` of the frame, as the list of its cells down the rows. -/
def DataFrame.col (df : DataFrame) (j : Nat) : List Value :=
  df.rows.map fun r => r.getD j Value.vNaN

/-- The staging MongoDB collection: its documents in insertion order, plus
the generator state for the next store-assigned ObjectId. -/
structure MongoState where
  docs : List Record
  nextId : Nat

/-- The records `save_to_mongodb` builds before inserting (src lines 89-97):
each row-dict is normalized by `convert_dates_to_datetime`, then
`synced_at` is set from a fresh `datetime.utcnow()` call — the `i`-th
processed record reads the clock at call index `i`, because `utcnow()` is
invoked inside the loop, once per record. -/
def processedRecords (clock : Nat → DateTime) (df : DataFrame) : List Record :=
  df.to_dict_records.enum.map fun p =>
    Record.setKey (convertFields p.2) "synced_at" (.vDateTime (clock p.1))

/-- `insert_many`: the store prepends a fresh ObjectId field `_id` to each
inserted document. -/
def withIds (start : Nat) (rs : List Record) : List Record :=
  rs.enum.map fun p => ("_id", Value.vId (start + p.1)) :: p.2

/-- `DataExportJob.save_to_mongodb` (src lines 74-106): clear the collection
with `delete_many({})`, normalize and stamp every row, then `insert_many`
only when there is at least one record.  Returns the new collection state
and whether `insert_many` was invoked. -/
def save_to_mongodb (clock : Nat → DateTime) (st : MongoState) (df : DataFrame) :
    MongoState × Bool :=
  let processed := processedRecords clock df
  if processed.isEmpty then
    ({ docs := [], nextId := st.nextId }, false)
  else
    ({ docs := withIds st.nextId processed, nextId := st.nextId + processed.length }, true)

/-- Union of the documents' field names in first-seen order: the column
labels `pd.DataFrame(documents)` infers. -/
def firstSeenCols (docs : List Record) : List String :=
  docs.foldl (fun a d => (d.map Prod.fst).foldl (fun a' k => if k ∈ a' then a' else a' ++ [k]) a) []

/-- `pd.DataFrame(documents)` (src line 126): columns are the first-seen
union of keys; a document missing a key contributes the missing sentinel. -/
def pdDataFrameOfDocs (docs : List Record) : DataFrame :=
  let cols := firstSeenCols docs
  { cols := cols,
    rows := docs.map fun d => cols.map fun c => ((d.lookup c).getD Value.vNaN) }

/-- `df.drop(c, axis=1)`: remove the labelled column and its cells. -/
def DataFrame.drop (df : DataFrame) (c : String) : DataFrame :=
  { cols := df.cols.filter (fun k => ¬ k = c),
    rows := df.rows.map fun r => ((df.cols.zip r).filter (fun kv => ¬ kv.1 = c)).map Prod.snd }

/-- `DataExportJob.fetch_from_mongodb` (src lines 108-133): an empty
collection yields `pd.DataFrame()` (no rows, no columns); otherwise all
documents are read into a frame and the `_id` column, when present, is
dropped. -/
def fetch_from_mongodb (st : MongoState) : DataFrame :=
  if st.docs.isEmpty then { cols := [], rows := [] }
  else
    let df := pdDataFrameOfDocs st.docs
    if "_id" ∈ df.cols then df.drop "_id" else df

/-- Is the value a temporal instant (`datetime`)? -/
def Value.isDT : Value → Bool
  | .vDateTime _ => true
  | _ => false

/-- Is the value a pandas missing sentinel or Python `None`? -/
def Value.isMissing : Value → Bool
  | .vNaN => true
  | .vNull => true
  | _ => false

/-- Is the value numeric (int or float)? -/
def Value.isNum : Value → Bool
  | .vInt _ => true
  | .vFloat _ => true
  | _ => false

/-- Does the value expose an isoformat-style conversion
(`hasattr(x, 'isoformat')`: `date` and `datetime` objects)? -/
def Value.hasIso : Value → Bool
  | .vDate _ => true
  | .vDateTime _ => true
  | _ => false

/-- pandas dtype inference, datetime case: a column is `datetime64` when it
holds at least one instant and nothing but instants and missing markers, so
`pd.api.types.is_datetime64_any_dtype` (src line 149) answers true. -/
def isDatetimeDtype (vals : List Value) : Bool :=
  vals.any Value.isDT && vals.all (fun v => v.isDT || v.isMissing)

/-- pandas dtype inference, numeric case (int64/float64): numbers and
missing markers only, at least one number. -/
def isNumericDtype (vals : List Value) : Bool :=
  vals.any Value.isNum && vals.all (fun v => v.isNum || v.isMissing)

/-- pandas dtype inference, bool case: a non-empty all-boolean column. -/
def isBoolDtype (vals : List Value) : Bool :=
  !vals.isEmpty && vals.all (fun v => match v with | .vBool _ => true | _ => false)

/-- pandas dtype inference, `object` fallback (src line 152): any column not
recognised as datetime, numeric or boolean. -/
def isObjectDtype (vals : List Value) : Bool :=
  !isDatetimeDtype vals && !isNumericDtype vals && !isBoolDtype vals

/-- Left-pad a numeral with zeros to width 2. -/
def pad2 (n : Nat) : String :=
  if n < 10 then "0" ++ toString n else toString n

/-- Left-pad a numeral with zeros to width 4. -/
def pad4 (n : Nat) : String :=
  if n < 10 then "000" ++ toString n
  else if n < 100 then "00" ++ toString n
  else if n < 1000 then "0" ++ toString n
  else toString n

/-- `date.isoformat()` / `str(date)`: `YYYY-MM-DD`. -/
def isoDateStr (d : Date) : String :=
  pad4 d.year ++ "-" ++ pad2 d.month ++ "-" ++ pad2 d.day

/-- `HH:MM:SS` component of a datetime. -/
def hmsStr (t : DateTime) : String :=
  pad2 t.hour ++ ":" ++ pad2 t.minute ++ ":" ++ pad2 t.second

/-- `dt.strftime('%Y-%m-%d %H:%M:%S')` (src line 150). -/
def formatYmdHms (t : DateTime) : String :=
  isoDateStr t.date ++ " " ++ hmsStr t

/-- `x.isoformat()` for the values exposing it: `date` gives `YYYY-MM-DD`,
`datetime` gives `YYYY-MM-DDTHH:MM:SS`. -/
def isoformatV : Value → Value
  | .vDate d => .vStr (isoDateStr d)
  | .vDateTime t => .vStr (isoDateStr t.date ++ "T" ++ hmsStr t)
  | v => v

/-- The per-column transformation of `export_to_csv` (src lines 147-155):
a datetime64 column goes through `.dt.strftime('%Y-%m-%d %H:%M:%S')`
(missing entries — `NaT` — come out as `NaN`); an object column maps each
value through `isoformat` when the value has it; any other column passes
unchanged. -/
def transformColumn (vals : List Value) : List Value :=
  if isDatetimeDtype vals then
    vals.map fun v => match v with
      | .vDateTime t => .vStr (formatYmdHms t)
      | _ => .vNaN
  else if isObjectDtype vals then
    vals.map fun v => if v.hasIso then isoformatV v else v
  else vals

/-- CSV field quoting (`csv.QUOTE_MINIMAL`): quote only fields containing a
delimiter, quote or newline, doubling inner quotes. -/
def csvEscape (s : String) : String :=
  if s.any (fun c => c = ',' || c = '"' || c = '\n' || c = '\r') then
    "\"" ++ (s.replace "\"" "\"\"") ++ "\""
  else s

/-- `to_csv` rendering of one final cell, before CSV quoting: missing
markers render as the empty field, the rest use their Python text
representation (composite values are abstracted to an opaque text form —
no claim depends on it).  The CSV writer applies `csvEscape` to every cell
at line-assembly time. -/
def renderCell : Value → String
  | .vNull => ""
  | .vNaN => ""
  | .vStr s => s
  | .vInt n => toString n
  | .vFloat n => toString n ++ ".0"
  | .vBool b => if b then "True" else "False"
  | .vDate d => isoDateStr d
  | .vDateTime t => formatYmdHms t
  | .vId n => "ObjectId-" ++ toString n
  | .vDict _ => "<dict>"
  | .vList _ => "<list>"

/-- Join one CSV row with the fixed comma delimiter. -/
def csvJoin (cells : List String) : String :=
  String.intercalate "," cells

/-- `df_copy` of `export_to_csv`: every column rewritten by
`transformColumn`, reassembled row-major. -/
def export_transform (df : DataFrame) : DataFrame :=
  { cols := df.cols,
    rows := (List.range df.rows.length).map fun i =>
      (List.range df.cols.length).map fun j =>
        (transformColumn (df.col j)).getD i Value.vNaN }

/-- The text lines `df_copy.to_csv(..., index=False)` writes: one header
line of the column labels, then one line per row. -/
def export_csv_lines (df : DataFrame) : List String :=
  csvJoin (df.cols.map csvEscape) ::
    (export_transform df).rows.map (fun r => csvJoin (r.map (fun v => csvEscape (renderCell v))))

/-- The cell of the artifact at row `i`, column `j`. -/
def renderedCell (df : DataFrame) (i j : Nat) : String :=
  renderCell ((transformColumn (df.col j)).getD i Value.vNaN)

/-- `DataExportJob.export_to_csv` (src lines 135-161): an empty frame is
refused (`return None`, no file written); otherwise the transformed frame
is written to the fixed-name CSV file and its content is returned. -/
def export_to_csv (df : DataFrame) : Option (List String) :=
  if df.empty then none else some (export_csv_lines df)

/-- `self.blob_name` (src line 31): fixed filename for a consistent
download URL. -/
def blob_name : String := "data_export.csv"

/-- `csv_filename` (src line 143): the fixed local intermediate file name. -/
def csv_filename : String := "data_export.csv"

/-- The blob container: content stored under the one fixed blob name, plus
a count of completed uploads. -/
structure BlobState where
  content : Option (List String)
  uploads : Nat

/-- The deterministic retrieval URL (src line 186), built from account,
container and blob name alone. -/
def blobUrl (account container : String) : String :=
  "https://" ++ account ++ ".blob.core.windows.net/" ++ container ++ "/" ++ blob_name

/-- Python truthiness of the `file_path` argument: `None` or the empty
string is falsy. -/
def pathFalsy : Option String → Bool
  | none => true
  | some s => s.isEmpty

/-- Result of one `upload_to_azure_blob` call: the container afterwards,
the returned URL (when any), and whether a blob-service connection was
established. -/
structure UploadResult where
  blob : BlobState
  url : Option String
  connected : Bool

/-- `DataExportJob.upload_to_azure_blob` (src lines 163-190): a falsy
`file_path` returns `None` before any connection is made; otherwise the
file bytes are uploaded under the fixed blob name with `overwrite=True`
and the deterministic URL is returned. -/
def upload_to_azure_blob (account container : String) (st : BlobState)
    (file_path : Option String) (fileContent : List String) : UploadResult :=
  if pathFalsy file_path then
    { blob := st, url := none, connected := false }
  else
    { blob := { content := some fileContent, uploads := st.uploads + 1 },
      url := some (blobUrl account container),
      connected := true }

/-- Terminal outcome of `run` (src lines 192-237): normal completion,
the early `return` after "CSV export failed", or a re-raised exception. -/
inductive RunOutcome where
  | success : String → RunOutcome
  | csvSkipped : RunOutcome
  | error : String → RunOutcome
deriving DecidableEq, Repr

/-- State of the world after one `run`: the outcome, both stores, and the
local intermediate file (present or absent). -/
structure RunResult where
  outcome : RunOutcome
  mongo : MongoState
  blob : BlobState
  csvFile : Option (List String)

/-- `DataExportJob.run` (src lines 192-237): stage 1 (the PostgreSQL fetch)
is an external read modelled by the `df_postgres` input; stages 2-5 follow
the source.  `uploadRaises` injects an exception from `upload_blob`
(src line 183); the top-level `except` re-raises it, and — as in the
source — performs no file cleanup on that path.  On the success path the
local CSV file is removed (src lines 224-227). -/
def run (clock : Nat → DateTime) (account container : String)
    (uploadRaises : Bool) (df_postgres : DataFrame)
    (m0 : MongoState) (b0 : BlobState) : RunResult :=
  let m1 := (save_to_mongodb clock m0 df_postgres).1
  let df_mongo := fetch_from_mongodb m1
  match export_to_csv df_mongo with
  | none =>
      { outcome := .csvSkipped, mongo := m1, blob := b0, csvFile := none }
  | some lines =>
      if uploadRaises then
        { outcome := .error "upload failed", mongo := m1, blob := b0,
          csvFile := some lines }
      else
        let up := upload_to_azure_blob account container b0 (some csv_filename) lines
        { outcome := .success ((up.url).getD ""), mongo := m1, blob := up.blob,
          csvFile := none }

/-- The scalars of the data model other than date-only values and missing
sentinels: integers, floats, strings, booleans, instants, null and
ObjectIds — exactly the values hitting the final `return obj` (or the
no-op `None` case) of `convert_dates_to_datetime`. -/
def Value.isPlainScalar : Value → Bool
  | .vInt _ => true
  | .vFloat _ => true
  | .vStr _ => true
  | .vBool _ => true
  | .vDateTime _ => true
  | .vNull => true
  | .vId _ => true
  | _ => false

/-- Remove the store-assigned identity field from a staged document. -/
def dropIdField (d : Record) : Record :=
  d.eraseP (fun kv => kv.1 == "_id")

/-- C1's invariant: every pair of documents carries an equal `synced_at`. -/
def allSyncedAtEq (docs : List Record) : Prop :=
  ∀ d1 ∈ docs, ∀ d2 ∈ docs,
    List.lookup "synced_at" d1 = List.lookup "synced_at" d2

/-- A clock that advances by one second per `utcnow()` call — the ordinary
behaviour of a wall clock observed at distinct instants. -/
def cexClock : Nat → DateTime := fun i => ⟨⟨2024, 1, 1⟩, 0, 0, i⟩

/-- A clock frozen at one instant for the whole run. -/
def constClock : Nat → DateTime := fun _ => ⟨⟨2024, 1, 1⟩, 0, 0, 0⟩

/-- A two-row input RecordSet. -/
def cexDf : DataFrame :=
  { cols := ["a"], rows := [[.vInt 1], [.vInt 2]] }

/-- An empty staging collection. -/
def cexMongo : MongoState := { docs := [], nextId := 0 }

/-- The first document `save_to_mongodb cexClock cexMongo cexDf` stores. -/
def cexDoc0 : Record :=
  [("_id", .vId 0), ("a", .vInt 1), ("synced_at", .vDateTime ⟨⟨2024, 1, 1⟩, 0, 0, 0⟩)]

/-- The second document `save_to_mongodb cexClock cexMongo cexDf` stores. -/
def cexDoc1 : Record :=
  [("_id", .vId 1), ("a", .vInt 2), ("synced_at", .vDateTime ⟨⟨2024, 1, 1⟩, 0, 0, 1⟩)]

/-- A RecordSet with a known column but no rows. -/
def wEmptyDf : DataFrame := { cols := ["id"], rows := [] }

/-- An empty blob container. -/
def wBlob : BlobState := { content := none, uploads := 0 }

/-- A one-cell frame holding a Stager-normalized date-only value. -/
def wDf : DataFrame :=
  { cols := ["signup"], rows := [[.vDateTime ⟨⟨2023, 2, 15⟩, 0, 0, 0⟩]] }

/-- A two-row frame whose one column mixes a temporal instant with a null —
the shape scenario A's `signup` column takes after staging a null date. -/
def mixDf : DataFrame :=
  { cols := ["signup"], rows := [[.vDateTime ⟨⟨2023, 2, 15⟩, 0, 0, 0⟩], [.vNull]] }

lemma convertItems_eq (xs : List Value) :
    convertItems xs = xs.map convert_dates_to_datetime := by
  induction xs with
  | nil => rfl
  | cons x xs ih => simp [convertItems, ih]

lemma convertFields_eq (fs : List (String × Value)) :
    convertFields fs = fs.map (fun kv => (kv.1, convert_dates_to_datetime kv.2)) := by
  induction fs with
  | nil => rfl
  | cons kv fs ih => simp [convertFields, ih]

lemma lookup_setKey (r : Record) (k : String) (v : Value) :
    List.lookup k (Record.setKey r k v) = some v := by
  unfold Record.setKey
  split
  case isTrue h =>
    induction r with
    | nil => simp at h
    | cons a as ih =>
      obtain ⟨a1, a2⟩ := a
      simp only [List.map_cons]
      by_cases hk : a1 = k
      · rw [if_pos (by simpa using hk)]
        simp [List.lookup]
      · rw [if_neg (by simpa using hk)]
        have h' : as.any (fun kv => decide (kv.1 = k)) = true := by
          simp only [List.any_cons, Bool.or_eq_true, decide_eq_true_eq] at h
          rcases h with h | h
          · exact absurd h hk
          · exact h
        have hne : (k == a1) = false := by
          simp only [beq_eq_false_iff_ne, ne_eq]
          intro he
          exact hk he.symm
        simp [List.lookup, hne, ih h']
  case isFalse h =>
    induction r with
    | nil => simp [List.lookup]
    | cons a as ih =>
      have hk : ¬ a.1 = k := by
        intro he
        exact h (by simp [List.any_cons, he])
      have h' : ¬ as.any (fun kv => decide (kv.1 = k)) = true := by
        intro hc
        exact h (by simp [List.any_cons, hc])
      have hne : (k == a.1) = false := by
        simp only [beq_eq_false_iff_ne, ne_eq]
        intro he
        exact hk he.symm
      simp [List.lookup, hne, ih h']

lemma withIds_map_dropId (n : Nat) (rs : List Record) :
    (withIds n rs).map dropIdField = rs := by
  unfold withIds
  rw [List.map_map]
  have h : ∀ (l : List (Nat × Record)),
      l.map (dropIdField ∘ fun p => ("_id", Value.vId (n + p.1)) :: p.2) = l.map Prod.snd := by
    intro l
    induction l with
    | nil => rfl
    | cons a as ih => simp [dropIdField, List.eraseP_cons, ih]
  rw [h, List.enum_map_snd]

lemma save_docs_eq (clock : Nat → DateTime) (st : MongoState) (df : DataFrame) :
    (save_to_mongodb clock st df).1.docs = withIds st.nextId (processedRecords clock df) := by
  unfold save_to_mongodb
  by_cases h : (processedRecords clock df).isEmpty
  · rw [List.isEmpty_iff] at h
    simp [h, withIds]
  · simp [h]

lemma save_inserted_eq (clock : Nat → DateTime) (st : MongoState) (df : DataFrame) :
    (save_to_mongodb clock st df).2 = !(processedRecords clock df).isEmpty := by
  unfold save_to_mongodb
  by_cases h : (processedRecords clock df).isEmpty
  · simp [h]
  · simp [h]

lemma processedRecords_length (clock : Nat → DateTime) (df : DataFrame) :
    (processedRecords clock df).length = df.rows.length := by
  simp [processedRecords, DataFrame.to_dict_records]

lemma withIds_length (n : Nat) (rs : List Record) :
    (withIds n rs).length = rs.length := by
  simp [withIds]

lemma processedRecords_of_empty (clock : Nat → DateTime) (df : DataFrame)
    (h : df.rows = []) : processedRecords clock df = [] := by
  simp [processedRecords, DataFrame.to_dict_records, h]

lemma save_of_empty (clock : Nat → DateTime) (st : MongoState) (df : DataFrame)
    (h : df.rows = []) :
    save_to_mongodb clock st df = ({ docs := [], nextId := st.nextId }, false) := by
  unfold save_to_mongodb
  simp [processedRecords_of_empty clock df h]

lemma syncedAt_of_mem_save (clock : Nat → DateTime) (st : MongoState) (df : DataFrame)
    (d : Record) (hd : d ∈ (save_to_mongodb clock st df).1.docs) :
    ∃ i, List.lookup "synced_at" d = some (.vDateTime (clock i)) := by
  rw [save_docs_eq] at hd
  unfold withIds at hd
  rw [List.mem_map] at hd
  obtain ⟨p, hp, rfl⟩ := hd
  have hp2 : p.2 ∈ processedRecords clock df := List.snd_mem_of_mem_enum hp
  unfold processedRecords at hp2
  rw [List.mem_map] at hp2
  obtain ⟨q, _, he⟩ := hp2
  refine ⟨q.1, ?_⟩
  have hstep : List.lookup "synced_at" (("_id", Value.vId (st.nextId + p.1)) :: p.2)
      = List.lookup "synced_at" p.2 := rfl
  rw [hstep, ← he]
  exact lookup_setKey _ _ _

/-- C1 (counterexample): with a wall clock that advances between the two
`utcnow()` calls of the loop, the two documents inserted by one
`save_to_mongodb` invocation carry different `synced_at` values — the claim
fails as stated because `utcnow()` is read once per record, inside the
loop, not once per run. -/
theorem synced_at_differs_across_documents_cex :
    ¬ allSyncedAtEq (save_to_mongodb cexClock cexMongo cexDf).1.docs := by
  intro h
  have e : (save_to_mongodb cexClock cexMongo cexDf).1.docs = [cexDoc0, cexDoc1] := rfl
  rw [e] at h
  have h2 := h cexDoc0 (List.mem_cons_self _ _) cexDoc1 (by simp)
  have e0 : List.lookup "synced_at" cexDoc0
      = some (.vDateTime ⟨⟨2024, 1, 1⟩, 0, 0, 0⟩) := rfl
  have e1 : List.lookup "synced_at" cexDoc1
      = some (.vDateTime ⟨⟨2024, 1, 1⟩, 0, 0, 1⟩) := rfl
  rw [e0, e1] at h2
  simp at h2

/-- C1 (amended): every document inserted by one `save_to_mongodb`
invocation carries `synced_at` equal to the `utcnow()` reading at its own
loop step; whenever the clock does not advance during the loop — in
particular when all readings coincide — all documents share one equal
`synced_at` value. -/
theorem synced_at_uniform_under_constant_clock (clock : Nat → DateTime)
    (st : MongoState) (df : DataFrame) (h : ∀ i j : Nat, clock i = clock j) :
    allSyncedAtEq (save_to_mongodb clock st df).1.docs := by
  intro d1 h1 d2 h2
  obtain ⟨i, e1⟩ := syncedAt_of_mem_save clock st df d1 h1
  obtain ⟨j, e2⟩ := syncedAt_of_mem_save clock st df d2 h2
  rw [e1, e2, h i j]

/-- C1 (witness): under a frozen clock the two staged documents agree on
`synced_at`. -/
theorem synced_at_uniform_witness :
    allSyncedAtEq (save_to_mongodb constClock cexMongo cexDf).1.docs :=
  synced_at_uniform_under_constant_clock constClock cexMongo cexDf (fun _ _ => rfl)

/-- C2: after `save_to_mongodb` the staging collection holds exactly this
run's normalized, stamped records with fresh store ids — independent of the
prior contents (delete-all then insert-all); running it twice with the same
RecordSet leaves exactly one copy of each record; an empty input still
clears the collection, attempts no insert, and raises no error. -/
theorem stager_full_replacement :
    (∀ (clock : Nat → DateTime) (st : MongoState) (df : DataFrame),
        (save_to_mongodb clock st df).1.docs = withIds st.nextId (processedRecords clock df)
      ∧ ((save_to_mongodb clock st df).1.docs).map dropIdField = processedRecords clock df)
  ∧ (∀ (clock clock' : Nat → DateTime) (st : MongoState) (df : DataFrame),
        ((save_to_mongodb clock' (save_to_mongodb clock st df).1 df).1.docs).map dropIdField
          = processedRecords clock' df
      ∧ ((save_to_mongodb clock' (save_to_mongodb clock st df).1 df).1.docs).length
          = df.rows.length)
  ∧ (∀ (clock : Nat → DateTime) (st : MongoState) (df : DataFrame), df.rows = [] →
        (save_to_mongodb clock st df).1.docs = [] ∧ (save_to_mongodb clock st df).2 = false) := by
  refine ⟨?_, ?_, ?_⟩
  · intro clock st df
    exact ⟨save_docs_eq clock st df, by rw [save_docs_eq, withIds_map_dropId]⟩
  · intro clock clock' st df
    constructor
    · rw [save_docs_eq, withIds_map_dropId]
    · rw [save_docs_eq, withIds_length, processedRecords_length]
  · intro clock st df h
    rw [save_of_empty clock st df h]
    exact ⟨rfl, rfl⟩

/-- C2 (witness): staging an empty RecordSet over an empty collection
leaves the collection empty and skips the insert. -/
theorem stager_full_replacement_witness :
    (save_to_mongodb cexClock cexMongo wEmptyDf).1.docs = []
  ∧ (save_to_mongodb cexClock cexMongo wEmptyDf).2 = false :=
  stager_full_replacement.2.2 cexClock cexMongo wEmptyDf rfl

/-- C3: the Stager's normalization is recursive — a date-only value becomes
the instant at midnight of that date, the missing sentinel becomes explicit
null, mappings and sequences are normalized element-wise, and every other
scalar is returned unchanged. -/
theorem normalization_recursive_rules :
    (∀ d : Date, convert_dates_to_datetime (.vDate d) = .vDateTime ⟨d, 0, 0, 0⟩)
  ∧ convert_dates_to_datetime .vNaN = .vNull
  ∧ (∀ fs : List (String × Value),
      convert_dates_to_datetime (.vDict fs)
        = .vDict (fs.map (fun kv => (kv.1, convert_dates_to_datetime kv.2))))
  ∧ (∀ xs : List Value,
      convert_dates_to_datetime (.vList xs) = .vList (xs.map convert_dates_to_datetime))
  ∧ (∀ v : Value, v.isPlainScalar = true → convert_dates_to_datetime v = v) := by
  refine ⟨fun d => rfl, rfl, ?_, ?_, ?_⟩
  · intro fs
    rw [show convert_dates_to_datetime (.vDict fs) = .vDict (convertFields fs) from rfl,
      convertFields_eq]
  · intro xs
    rw [show convert_dates_to_datetime (.vList xs) = .vList (convertItems xs) from rfl,
      convertItems_eq]
  · intro v hv
    cases v <;> first
      | rfl
      | simp [Value.isPlainScalar] at hv

/-- C3 (witness): normalization leaves a plain integer scalar unchanged. -/
theorem normalization_recursive_rules_witness :
    convert_dates_to_datetime (.vInt 5) = .vInt 5 :=
  normalization_recursive_rules.2.2.2.2 (.vInt 5) rfl

/-- C8: the Publisher uploads under the constant blob name with overwrite
semantics and returns the URL built deterministically from account,
container and blob name alone — independent of prior container state and of
the uploaded bytes; a second upload replaces the blob's content. -/
theorem publisher_fixed_blob_overwrite :
    blob_name = "data_export.csv"
  ∧ (∀ a c : String, blobUrl a c
      = "https://" ++ a ++ ".blob.core.windows.net/" ++ c ++ "/" ++ "data_export.csv")
  ∧ (∀ (a c : String) (st : BlobState) (fp : Option String) (content : List String),
      pathFalsy fp = false →
        (upload_to_azure_blob a c st fp content).url = some (blobUrl a c)
      ∧ (upload_to_azure_blob a c st fp content).blob.content = some content)
  ∧ (∀ (a c : String) (st st' : BlobState) (fp fp' : Option String)
       (content content' : List String),
      pathFalsy fp = false → pathFalsy fp' = false →
        (upload_to_azure_blob a c st fp content).url
          = (upload_to_azure_blob a c st' fp' content').url)
  ∧ (∀ (a c : String) (st : BlobState) (fp fp' : Option String)
       (content content' : List String),
      pathFalsy fp' = false →
        ((upload_to_azure_blob a c
            (upload_to_azure_blob a c st fp content).blob fp' content').blob).content
          = some content') := by
  refine ⟨rfl, fun a c => rfl, ?_, ?_, ?_⟩
  · intro a c st fp content h
    constructor <;> simp [upload_to_azure_blob, h]
  · intro a c st st' fp fp' content content' h h'
    simp [upload_to_azure_blob, h, h']
  · intro a c st fp fp' content content' h'
    simp [upload_to_azure_blob, h']

/-- C8 (witness): a concrete upload returns the deterministic URL and
stores the uploaded content. -/
theorem publisher_fixed_blob_overwrite_witness :
    (upload_to_azure_blob "acct" "cont" wBlob (some "data_export.csv") ["x"]).url
      = some (blobUrl "acct" "cont")
  ∧ (upload_to_azure_blob "acct" "cont" wBlob (some "data_export.csv") ["x"]).blob.content
      = some ["x"] :=
  publisher_fixed_blob_overwrite.2.2.1 "acct" "cont" wBlob (some "data_export.csv") ["x"] rfl

/-- C10: a falsy `file_path` makes the Publisher return `None` at once,
with no blob-service connection and no change to the container. -/
theorem upload_falsy_path_noop (a c : String) (st : BlobState)
    (fp : Option String) (content : List String) (h : pathFalsy fp = true) :
    upload_to_azure_blob a c st fp content
      = { blob := st, url := none, connected := false } := by
  simp [upload_to_azure_blob, h]

/-- C10 (witness): calling the Publisher with `None` is a no-op. -/
theorem upload_falsy_path_noop_witness :
    upload_to_azure_blob "acct" "cont" wBlob none []
      = { blob := wBlob, url := none, connected := false } :=
  upload_falsy_path_noop "acct" "cont" wBlob none [] rfl

/-- C4: the Re-extractor reads every staged document into the RecordSet
(one row per document), its output never contains the store-assigned `_id`
field, and an empty collection yields the explicit empty RecordSet of zero
rows and zero known columns. -/
theorem reextraction_strips_identity (st : MongoState) :
    "_id" ∉ (fetch_from_mongodb st).cols
  ∧ (fetch_from_mongodb st).rows.length = st.docs.length
  ∧ (st.docs = [] → fetch_from_mongodb st = { cols := [], rows := [] }) := by
  unfold fetch_from_mongodb
  cases hE : st.docs.isEmpty with
  | true =>
    rw [List.isEmpty_iff] at hE
    simp [hE]
  | false =>
    have hne : ¬ st.docs = [] := by
      intro h
      rw [h] at hE
      simp at hE
    by_cases hid : "_id" ∈ firstSeenCols st.docs
    · refine ⟨?_, ?_, fun h => absurd h hne⟩
      · simp [hE, pdDataFrameOfDocs, hid, DataFrame.drop, List.mem_filter]
      · simp [hE, pdDataFrameOfDocs, hid, DataFrame.drop]
    · refine ⟨?_, ?_, fun h => absurd h hne⟩
      · simp [hE, pdDataFrameOfDocs, hid]
      · simp [hE, pdDataFrameOfDocs, hid]

/-- C4 (witness): the empty collection yields the explicit empty
RecordSet. -/
theorem reextraction_strips_identity_witness :
    fetch_from_mongodb cexMongo = { cols := [], rows := [] } :=
  (reextraction_strips_identity cexMongo).2.2 rfl

/-- C5: an empty RecordSet makes the Serializer refuse to produce an
artifact (`None`, the distinguished skip outcome rather than an
exception); with a zero-row source the whole run terminates in the
distinguished `csvSkipped` state — never the error state — before stage 5,
leaving the blob container untouched. -/
theorem empty_recordset_export_skipped :
    (∀ df : DataFrame, df.empty = true → export_to_csv df = none)
  ∧ (∀ (clock : Nat → DateTime) (account container : String) (uploadRaises : Bool)
       (df : DataFrame) (m : MongoState) (b : BlobState), df.rows = [] →
        (run clock account container uploadRaises df m b).outcome = .csvSkipped
      ∧ (run clock account container uploadRaises df m b).blob = b
      ∧ (run clock account container uploadRaises df m b).csvFile = none
      ∧ ∀ msg, (run clock account container uploadRaises df m b).outcome ≠ .error msg) := by
  constructor
  · intro df h
    simp [export_to_csv, h]
  · intro clock account container uploadRaises df m b h
    have hr : run clock account container uploadRaises df m b
        = { outcome := .csvSkipped, mongo := { docs := [], nextId := m.nextId },
            blob := b, csvFile := none } := by
      simp only [run]
      rw [save_of_empty clock m df h]
      rfl
    rw [hr]
    exact ⟨rfl, rfl, rfl, fun msg => by simp⟩

/-- C5 (witness): a concrete zero-row run ends in the skip state with the
blob container untouched. -/
theorem empty_recordset_export_skipped_witness :
    (run cexClock "acct" "cont" false wEmptyDf cexMongo wBlob).outcome = .csvSkipped
  ∧ (run cexClock "acct" "cont" false wEmptyDf cexMongo wBlob).blob = wBlob
  ∧ (run cexClock "acct" "cont" false wEmptyDf cexMongo wBlob).csvFile = none
  ∧ ∀ msg, (run cexClock "acct" "cont" false wEmptyDf cexMongo wBlob).outcome
      ≠ .error msg :=
  empty_recordset_export_skipped.2 cexClock "acct" "cont" false wEmptyDf cexMongo wBlob rfl

/-- C7: for a non-empty RecordSet the Serializer produces the artifact and
it has exactly one header line of the column names plus one line per
Record. -/
theorem artifact_line_count (df : DataFrame) (h : df.empty = false) :
    export_to_csv df = some (export_csv_lines df)
  ∧ (export_csv_lines df).length = df.rows.length + 1
  ∧ (export_csv_lines df).head? = some (csvJoin (df.cols.map csvEscape)) := by
  refine ⟨by simp [export_to_csv, h], ?_, rfl⟩
  simp [export_csv_lines, export_transform]

/-- C7 (witness): the one-row frame yields a two-line artifact. -/
theorem artifact_line_count_witness :
    export_to_csv wDf = some (export_csv_lines wDf)
  ∧ (export_csv_lines wDf).length = wDf.rows.length + 1
  ∧ (export_csv_lines wDf).head? = some (csvJoin (wDf.cols.map csvEscape)) :=
  artifact_line_count wDf rfl

/-- C9 (counterexample): in a run whose publish attempt raises, the run
ends in the error state and the local intermediate CSV file is NOT
removed — contradicting the claim that cleanup also happens after an
explicitly failed publish attempt (the source deletes the file only after
`upload_to_azure_blob` returns; the top-level handler re-raises without
cleanup). -/
theorem no_cleanup_on_failed_publish_cex :
    (run cexClock "acct" "cont" true cexDf cexMongo wBlob).outcome
      = .error "upload failed"
  ∧ ¬ (run cexClock "acct" "cont" true cexDf cexMongo wBlob).csvFile = none := by
  constructor
  · rfl
  · intro h
    rw [show (run cexClock "acct" "cont" true cexDf cexMongo wBlob).csvFile
        = some (export_csv_lines
            (fetch_from_mongodb (save_to_mongodb cexClock cexMongo cexDf).1)) from rfl] at h
    simp at h

/-- C9 (amended): the local intermediate CSV file is removed on the
success path after publish; when the publish attempt raises, the error
propagates as the run's outcome and the file is left in place — there is
no cleanup on the failure path. -/
theorem cleanup_only_after_successful_publish (clock : Nat → DateTime)
    (account container : String) (df : DataFrame) (m : MongoState) (b : BlobState) :
    (run clock account container false df m b).csvFile = none
  ∧ (∀ lines,
      export_to_csv (fetch_from_mongodb (save_to_mongodb clock m df).1) = some lines →
        (run clock account container true df m b).csvFile = some lines
      ∧ (run clock account container true df m b).outcome = .error "upload failed") := by
  constructor
  · simp only [run]
    cases hE : export_to_csv (fetch_from_mongodb (save_to_mongodb clock m df).1) with
    | none => rfl
    | some lines => rfl
  · intro lines hE
    constructor
    · simp only [run]
      rw [hE]
      rfl
    · simp only [run]
      rw [hE]
      rfl

/-- C9 (witness): a concrete failed-publish run leaves the file behind and
surfaces the error. -/
theorem cleanup_only_after_successful_publish_witness :
    (run cexClock "acct" "cont" true cexDf cexMongo wBlob).csvFile
      = some (export_csv_lines
          (fetch_from_mongodb (save_to_mongodb cexClock cexMongo cexDf).1))
  ∧ (run cexClock "acct" "cont" true cexDf cexMongo wBlob).outcome
      = .error "upload failed" :=
  (cleanup_only_after_successful_publish cexClock "acct" "cont" cexDf cexMongo wBlob).2
    _ rfl

lemma col_length (df : DataFrame) (j : Nat) :
    (df.col j).length = df.rows.length := by
  simp [DataFrame.col]

lemma getD_mem {l : List Value} {i : Nat} (h : i < l.length) :
    l.getD i .vNaN ∈ l := by
  rw [List.getD_eq_getElem?_getD, List.getElem?_eq_getElem h]
  simp only [Option.getD_some]
  exact List.getElem_mem h

lemma getD_map (f : Value → Value) (l : List Value) (i : Nat) (h : i < l.length) :
    (l.map f).getD i .vNaN = f (l.getD i .vNaN) := by
  rw [List.getD_eq_getElem?_getD, List.getD_eq_getElem?_getD, List.getElem?_map,
    List.getElem?_eq_getElem h]
  rfl

lemma hasIso_of_isDT (v : Value) (h : v.isDT = true) : v.hasIso = true := by
  cases v <;> first
    | rfl
    | simp [Value.isDT] at h

lemma hasIso_cases (v : Value) (h : v.hasIso = true) :
    (∃ d, v = .vDate d) ∨ (∃ t, v = .vDateTime t) := by
  cases v <;> first
    | exact Or.inl ⟨_, rfl⟩
    | exact Or.inr ⟨_, rfl⟩
    | simp [Value.hasIso] at h

lemma missing_cases (v : Value) (h : v.isMissing = true) :
    v = .vNaN ∨ v = .vNull := by
  cases v <;> first
    | exact Or.inl rfl
    | exact Or.inr rfl
    | simp [Value.isMissing] at h

lemma all_false_of_mem {p : Value → Bool} {l : List Value} {v : Value}
    (hm : v ∈ l) (hv : p v = false) : l.all p = false := by
  rw [List.all_eq_false]
  exact ⟨v, hm, by simp [hv]⟩

lemma objectDtype_of_iso_mem {l : List Value} {v : Value} (hm : v ∈ l)
    (hiso : v.hasIso = true) (hnd : isDatetimeDtype l = false) :
    isObjectDtype l = true := by
  have hnum : isNumericDtype l = false := by
    unfold isNumericDtype
    rcases hasIso_cases v hiso with ⟨d, rfl⟩ | ⟨t, rfl⟩
    · rw [all_false_of_mem hm
        (show ((Value.vDate d).isNum || (Value.vDate d).isMissing) = false from rfl),
        Bool.and_false]
    · rw [all_false_of_mem hm
        (show ((Value.vDateTime t).isNum || (Value.vDateTime t).isMissing) = false from rfl),
        Bool.and_false]
  have hbool : isBoolDtype l = false := by
    unfold isBoolDtype
    rcases hasIso_cases v hiso with ⟨d, rfl⟩ | ⟨t, rfl⟩
    · rw [all_false_of_mem hm
        (show (match Value.vDate d with | .vBool _ => true | _ => false) = false from rfl),
        Bool.and_false]
    · rw [all_false_of_mem hm
        (show (match Value.vDateTime t with | .vBool _ => true | _ => false) = false from rfl),
        Bool.and_false]
  unfold isObjectDtype
  rw [hnd, hnum, hbool]
  rfl

lemma transformColumn_dt {l : List Value} (h : isDatetimeDtype l = true) :
    transformColumn l = l.map (fun v => match v with
      | .vDateTime t => .vStr (formatYmdHms t)
      | _ => .vNaN) := by
  unfold transformColumn
  simp [h]

lemma transformColumn_obj {l : List Value} (h1 : isDatetimeDtype l = false)
    (h2 : isObjectDtype l = true) :
    transformColumn l = l.map (fun v => if v.hasIso then isoformatV v else v) := by
  unfold transformColumn
  simp [h1, h2]

lemma transformColumn_other {l : List Value} (h1 : isDatetimeDtype l = false)
    (h2 : isObjectDtype l = false) :
    transformColumn l = l := by
  unfold transformColumn
  simp [h1, h2]

/-- C6 (counterexample): in a column mixing a temporal instant with a null
— the very shape the pipeline's own scenario (a staged null date) produces
— rule (1) as claimed does not apply (not every value is an instant), so
the claim's rule (2) prescribes rendering the instant via its isoformat
conversion; but the code's `is_datetime64_any_dtype` test is true for such
a column and renders the instant via `strftime('%Y-%m-%d %H:%M:%S')`
(space separator), not isoformat (`T` separator). -/
theorem serializer_rule2_isoformat_cex :
    (¬ ∀ w ∈ mixDf.col 0, w.isDT = true)
  ∧ ((mixDf.col 0).getD 0 .vNaN).hasIso = true
  ∧ renderedCell mixDf 0 0 = "2023-02-15 00:00:00"
  ∧ renderCell (isoformatV ((mixDf.col 0).getD 0 .vNaN)) = "2023-02-15T00:00:00"
  ∧ ¬ renderedCell mixDf 0 0
      = renderCell (isoformatV ((mixDf.col 0).getD 0 .vNaN)) := by
  refine ⟨?_, rfl, rfl, rfl, ?_⟩
  · intro h
    have h2 := h .vNull
      (by
        rw [show mixDf.col 0
            = [.vDateTime ⟨⟨2023, 2, 15⟩, 0, 0, 0⟩, .vNull] from rfl]
        simp)
    simp [Value.isDT] at h2
  · intro h
    rw [show renderedCell mixDf 0 0 = "2023-02-15 00:00:00" from rfl,
      show renderCell (isoformatV ((mixDf.col 0).getD 0 .vNaN))
        = "2023-02-15T00:00:00" from rfl] at h
    exact absurd h (by decide)

/-- C6 (amended): per-column rendering priority of the Serializer — (1) a
column holding at least one temporal instant and nothing but instants and
missing markers (the pandas datetime64-dtype test) renders every instant
as `YYYY-MM-DD HH:MM:SS`; a column whose values are all temporal instants
falls under this rule; (2) otherwise — the column is not
datetime64-dtyped — a value exposing an isoformat conversion is rendered
via that conversion; (3) all other values keep their natural text
representation; a missing/null cell renders as the empty field; and a
Stager-normalized date-only value renders as `YYYY-MM-DD 00:00:00`. -/
theorem serializer_value_rendering (df : DataFrame) (i j : Nat)
    (hi : i < df.rows.length) (_hj : j < df.cols.length) :
    (isDatetimeDtype (df.col j) = true → ∀ t : DateTime,
        (df.col j).getD i .vNaN = .vDateTime t →
          renderedCell df i j = formatYmdHms t)
  ∧ ((∀ w ∈ df.col j, w.isDT = true) → isDatetimeDtype (df.col j) = true)
  ∧ (isDatetimeDtype (df.col j) = false →
        ((df.col j).getD i .vNaN).hasIso = true →
          renderedCell df i j = renderCell (isoformatV ((df.col j).getD i .vNaN)))
  ∧ (((df.col j).getD i .vNaN).hasIso = false →
        ((df.col j).getD i .vNaN).isMissing = false →
          renderedCell df i j = renderCell ((df.col j).getD i .vNaN))
  ∧ (((df.col j).getD i .vNaN).isMissing = true → renderedCell df i j = "")
  ∧ (∀ d : Date, convert_dates_to_datetime (.vDate d) = .vDateTime ⟨d, 0, 0, 0⟩
        ∧ formatYmdHms ⟨d, 0, 0, 0⟩ = isoDateStr d ++ " 00:00:00") := by
  have hi' : i < (df.col j).length := by
    rw [col_length]
    exact hi
  have hmem : (df.col j).getD i .vNaN ∈ df.col j := getD_mem hi'
  refine ⟨?_, ?_, ?_, ?_, ?_, ?_⟩
  · intro hdt t hvt
    rw [renderedCell, transformColumn_dt hdt, getD_map _ _ _ hi', hvt]
    rfl
  · intro hall
    unfold isDatetimeDtype
    rw [Bool.and_eq_true, List.any_eq_true, List.all_eq_true]
    refine ⟨⟨_, hmem, hall _ hmem⟩, fun w hw => ?_⟩
    rw [hall w hw]
    rfl
  · intro hnd hiso
    have hobj := objectDtype_of_iso_mem hmem hiso hnd
    rw [renderedCell, transformColumn_obj hnd hobj, getD_map _ _ _ hi', if_pos hiso]
  · intro hni hnm
    have hnd : isDatetimeDtype (df.col j) = false := by
      cases hD : isDatetimeDtype (df.col j) with
      | false => rfl
      | true =>
        exfalso
        unfold isDatetimeDtype at hD
        rw [Bool.and_eq_true, List.all_eq_true] at hD
        have hOr := hD.2 _ hmem
        rw [Bool.or_eq_true] at hOr
        rcases hOr with h' | h'
        · rw [hasIso_of_isDT _ h'] at hni
          simp at hni
        · rw [h'] at hnm
          simp at hnm
    by_cases hobj : isObjectDtype (df.col j) = true
    · rw [renderedCell, transformColumn_obj hnd hobj, getD_map _ _ _ hi',
        if_neg (by rw [hni]; simp)]
    · have hobj' : isObjectDtype (df.col j) = false := by simpa using hobj
      rw [renderedCell, transformColumn_other hnd hobj']
  · intro hm
    rcases missing_cases _ hm with hV | hV
    · by_cases hdt : isDatetimeDtype (df.col j) = true
      · rw [renderedCell, transformColumn_dt hdt, getD_map _ _ _ hi', hV]
        rfl
      · have hnd : isDatetimeDtype (df.col j) = false := by simpa using hdt
        by_cases hobj : isObjectDtype (df.col j) = true
        · rw [renderedCell, transformColumn_obj hnd hobj, getD_map _ _ _ hi', hV]
          rfl
        · have hobj' : isObjectDtype (df.col j) = false := by simpa using hobj
          rw [renderedCell, transformColumn_other hnd hobj', hV]
          rfl
    · by_cases hdt : isDatetimeDtype (df.col j) = true
      · rw [renderedCell, transformColumn_dt hdt, getD_map _ _ _ hi', hV]
        rfl
      · have hnd : isDatetimeDtype (df.col j) = false := by simpa using hdt
        by_cases hobj : isObjectDtype (df.col j) = true
        · rw [renderedCell, transformColumn_obj hnd hobj, getD_map _ _ _ hi', hV]
          rfl
        · have hobj' : isObjectDtype (df.col j) = false := by simpa using hobj
          rw [renderedCell, transformColumn_other hnd hobj', hV]
          rfl
  · intro d
    refine ⟨rfl, ?_⟩
    have h1 : hmsStr ⟨d, 0, 0, 0⟩ = "00:00:00" := by
      show pad2 0 ++ ":" ++ pad2 0 ++ ":" ++ pad2 0 = "00:00:00"
      rfl
    show isoDateStr d ++ " " ++ hmsStr ⟨d, 0, 0, 0⟩ = isoDateStr d ++ " 00:00:00"
    rw [h1, String.append_assoc,
      show (" " ++ "00:00:00" : String) = " 00:00:00" from rfl]

/-- C6 (witness): in the mixed instants-plus-null column the instant
renders as the fixed-format midnight text while the null cell renders
empty. -/
theorem serializer_value_rendering_witness :
    renderedCell mixDf 0 0 = "2023-02-15 00:00:00"
  ∧ renderedCell mixDf 1 0 = "" := by
  constructor
  · have h := (serializer_value_rendering mixDf 0 0 (by decide) (by decide)).1
      rfl ⟨⟨2023, 2, 15⟩, 0, 0, 0⟩ rfl
    rw [h]
    rfl
  · exact (serializer_value_rendering mixDf 1 0 (by decide) (by decide)).2.2.2.2.1 rfl
